import Mathlib

/-!
Shallow embedding of the ink! ERC-20 contract in `src/lib.rs` (module `erc20`).

The contract state is a struct with a `total_supply : Balance`, a
`balances : Mapping<AccountId, Balance>` and an
`allowances : Mapping<(AccountId, AccountId), Balance>`.  `Balance` is `u128`;
we model it as `Nat` and apply `% 2 ^ 128` exactly where the Rust code performs
an addition that can overflow (`balance_to + value` in `transfer_helper`;
Rust's release-profile `+` on `u128` wraps).  The subtractions in the code are
guarded by the preceding comparisons, so they never underflow and plain `Nat`
subtraction is exact there.  `Mapping` is modelled as an association list with
overwriting insert and lookup-with-default-zero, matching ink!'s
`get(..).unwrap_or_default()` reads.  The ambient caller
(`self.env().caller()`) is threaded as an explicit first argument, and the
events emitted by a call are returned alongside the new state.
-/

abbrev AccountId := Nat

abbrev Balance := Nat

/-- `u128` modulus: Rust `Balance` arithmetic wraps at `2 ^ 128`. -/
def U128 : Nat := 2 ^ 128

/-- Association-list lookup, modelling `Mapping::get`. -/
def mapGet [DecidableEq α] : List (α × β) → α → Option β
  | [], _ => none
  | (k2, v2) :: rest, k => if k2 = k then some v2 else mapGet rest k

/-- Association-list overwriting insert, modelling `Mapping::insert`. -/
def mapInsert [DecidableEq α] : List (α × β) → α → β → List (α × β)
  | [], k, v => [(k, v)]
  | (k2, v2) :: rest, k, v =>
      if k2 = k then (k, v) :: rest else (k2, v2) :: mapInsert rest k v

/-- The `Error` enum of the contract: `BalanceTooLow`, `AllowancesTooLow`.
There is no overflow-related variant. -/
inductive Error where
  | BalanceTooLow : Error
  | AllowancesTooLow : Error
  deriving DecidableEq, Repr

/-- The two ink! events of the contract: `Transfer { from, to, value }`
(with optional accounts) and `Approve { from, to, value }`. -/
inductive Event where
  | Transfer : Option AccountId → Option AccountId → Balance → Event
  | Approve : AccountId → AccountId → Balance → Event
  deriving DecidableEq, Repr

/-- Rust `Result<(), Error>` as returned by the contract messages. -/
inductive TxResult where
  | ok : TxResult
  | err : Error → TxResult
  deriving DecidableEq, Repr

/-- The `Erc20` storage struct. -/
structure Erc20 where
  total_supply : Balance
  balances : List (AccountId × Balance)
  allowances : List ((AccountId × AccountId) × Balance)
  deriving DecidableEq, Repr

/-- Constructor `new(total_supply)`: credits the caller with the whole supply,
emits `Transfer { from: None, to: Some(caller), value: total_supply }`, leaves
`allowances` at its `Default` (empty).  It cannot fail. -/
def new (caller : AccountId) (total_supply : Balance) : Erc20 × List Event :=
  ({ total_supply := total_supply
     balances := mapInsert [] caller total_supply
     allowances := [] },
   [Event.Transfer none (some caller) total_supply])

/-- Message `total_supply()`. -/
def total_supply (s : Erc20) : Balance :=
  s.total_supply

/-- Message `balance_of(who)`: `balances.get(&who).unwrap_or_default()`. -/
def balance_of (s : Erc20) (who : AccountId) : Balance :=
  (mapGet s.balances who).getD 0

/-- Observer for the allowance entry of `(owner, spender)`, with the same
absent-means-zero reading the code uses in `transfer_from`. -/
def allowance_of (s : Erc20) (owner spender : AccountId) : Balance :=
  (mapGet s.allowances (owner, spender)).getD 0

/-- Internal `transfer_helper(from, to, value)`: reads both balances first,
rejects `value > balance_from` with `BalanceTooLow`, then writes
`balance_from - value` and `balance_to + value` (the latter wrapping at
`2 ^ 128`) and emits `Transfer { Some(from), Some(to), value }`. -/
def transfer_helper (s : Erc20) (from_ to_ : AccountId) (value : Balance) :
    Erc20 × List Event × TxResult :=
  let balance_from := balance_of s from_
  let balance_to := balance_of s to_
  if value > balance_from then
    (s, [], TxResult.err Error.BalanceTooLow)
  else
    let s1 : Erc20 :=
      { s with balances := mapInsert s.balances from_ (balance_from - value) }
    let s2 : Erc20 :=
      { s1 with balances :=
          mapInsert s1.balances to_ ((balance_to + value) % U128) }
    (s2, [Event.Transfer (some from_) (some to_) value], TxResult.ok)

/-- Message `transfer(to, value)` with explicit caller. -/
def transfer (s : Erc20) (caller to_ : AccountId) (value : Balance) :
    Erc20 × List Event × TxResult :=
  transfer_helper s caller to_ value

/-- Message `transfer_from(from, to, value)` with explicit caller: looks up
`allowances[(from, caller)]` (default 0), rejects `allowances < value` with
`AllowancesTooLow`, otherwise stores the decremented allowance and calls
`transfer_helper(from, to, value)`. -/
def transfer_from (s : Erc20) (caller from_ to_ : AccountId) (value : Balance) :
    Erc20 × List Event × TxResult :=
  let allowances := (mapGet s.allowances (from_, caller)).getD 0
  if allowances < value then
    (s, [], TxResult.err Error.AllowancesTooLow)
  else
    let s1 : Erc20 :=
      { s with allowances :=
          mapInsert s.allowances (from_, caller) (allowances - value) }
    transfer_helper s1 from_ to_ value

/-- Message `approve(to, value)` with explicit caller: overwrites
`allowances[(caller, to)]` and emits `Approve { from: caller, to, value }`. -/
def approve (s : Erc20) (caller to_ : AccountId) (value : Balance) :
    Erc20 × List Event × TxResult :=
  ({ s with allowances := mapInsert s.allowances (caller, to_) value },
   [Event.Approve caller to_ value], TxResult.ok)

/-- One external mutating call, with its caller. -/
inductive Call where
  | transfer : AccountId → AccountId → Balance → Call
  | approve : AccountId → AccountId → Balance → Call
  | transferFrom : AccountId → AccountId → AccountId → Balance → Call
  deriving DecidableEq, Repr

/-- State reached after dispatching one call (events and result discarded). -/
def step (s : Erc20) : Call → Erc20
  | Call.transfer c t v => (transfer s c t v).1
  | Call.approve c t v => (approve s c t v).1
  | Call.transferFrom c f t v => (transfer_from s c f t v).1

/-- State reached from `s` after a sequence of calls. -/
def run (s : Erc20) (calls : List Call) : Erc20 :=
  calls.foldl step s

/-- Sum of all values stored in the `balances` mapping. -/
def sumBalances (s : Erc20) : Nat :=
  (s.balances.map Prod.snd).sum

/-- Concrete state for claim C2: `new(10)` by account 0, `approve(0→1, 5)`,
then `transfer(0→2, 10)`, so that account 0 has allowance 5 towards spender 1
but balance 0. -/
def cState2 : Erc20 :=
  (transfer ((approve ((new 0 10).1) 0 1 5).1) 0 2 10).1

/-- Concrete state for claim C5: `new(10)` by account 0 followed by
`approve(0→1, 5)`. -/
def cState5 : Erc20 :=
  (approve ((new 0 10).1) 0 1 5).1

theorem mapGet_mapInsert_self [DecidableEq α] (m : List (α × β)) (k : α)
    (v : β) : mapGet (mapInsert m k v) k = some v := by
  induction m with
  | nil => simp [mapInsert, mapGet]
  | cons p rest ih =>
      obtain ⟨k2, v2⟩ := p
      by_cases h : k2 = k
      · simp [mapInsert, mapGet, h]
      · simp [mapInsert, mapGet, h, ih]

theorem mapGet_mapInsert_ne [DecidableEq α] (m : List (α × β)) (k k2 : α)
    (v : β) (h : k2 ≠ k) : mapGet (mapInsert m k v) k2 = mapGet m k2 := by
  have h' : ¬(k = k2) := fun h2 => h h2.symm
  induction m with
  | nil => simp [mapInsert, mapGet, h']
  | cons p rest ih =>
      obtain ⟨k3, v3⟩ := p
      by_cases h3 : k3 = k
      · simp [mapInsert, mapGet, h3, h']
      · by_cases h4 : k3 = k2
        · simp [mapInsert, mapGet, h3, h4, h, h']
        · simp [mapInsert, mapGet, h3, h4, ih]

example : balance_of ((new 0 10000).1) 0 = 10000 := by decide

example : total_supply ((new 0 10000).1) = 10000 := by decide

example :
    balance_of ((transfer ((new 0 10000).1) 0 1 12).1) 1 = 12 := by decide

example :
    (transfer ((new 0 10000).1) 1 2 12).2.2 =
      TxResult.err Error.BalanceTooLow := by decide

theorem balance_of_set_allowances (s : Erc20)
    (X : List ((AccountId × AccountId) × Balance)) (a : AccountId) :
    balance_of { s with allowances := X } a = balance_of s a := rfl

theorem allowance_of_set_balances (s : Erc20)
    (X : List (AccountId × Balance)) (o p : AccountId) :
    allowance_of { s with balances := X } o p = allowance_of s o p := rfl

/-- Claim C1: the claimed invariant `sum(balances.values()) == total_supply`
fails on the code.  `transfer_helper` reads the recipient balance before the
sender's debit is written back, so a self-transfer `transfer(A, A, v)` ends
with `balances[A] = old + v`: after `new(10)` by account 0 and
`transfer(0, 0, 5)` the stored balances sum to 15 while `total_supply` is
10. -/
theorem C1_sum_invariant_violated :
    sumBalances (run ((new 0 10).1) [Call.transfer 0 0 5]) = 15 ∧
    (run ((new 0 10).1) [Call.transfer 0 0 5]).total_supply = 10 ∧
    sumBalances (run ((new 0 10).1) [Call.transfer 0 0 5]) ≠
      total_supply (run ((new 0 10).1) [Call.transfer 0 0 5]) := by
  decide

/-- Claim C2 as stated is false: in `cState2` the allowance of `(0, 1)` is 5
and account 0's balance is 0, and `transfer_from(caller=1, from=0, to=2, 3)`
fails with `BalanceTooLow` — but the allowance entry drops from 5 to 2, so the
decrement IS observable and the state is not left exactly as before. -/
theorem C2_claim_counterexample :
    allowance_of cState2 0 1 = 5 ∧ balance_of cState2 0 = 0 ∧
    (transfer_from cState2 1 0 2 3).2.2 = TxResult.err Error.BalanceTooLow ∧
    allowance_of ((transfer_from cState2 1 0 2 3).1) 0 1 = 2 ∧
    (transfer_from cState2 1 0 2 3).1 ≠ cState2 := by
  decide

/-- Claim C2 (amended): when the allowance of `(A, B)` covers `v` but `A`'s
balance does not, `transfer_from(caller=B, from=A, to=C, v)` returns
`BalanceTooLow`, leaves `total_supply`, all balances and every other allowance
entry unchanged and emits no event, but the stored allowance of `(A, B)` is
decremented by `v` — the ledger logic itself performs no rollback. -/
theorem C2_transfer_from_balance_fail (s : Erc20) (A B C : AccountId)
    (v : Balance) (hall : v ≤ allowance_of s A B)
    (hbal : balance_of s A < v) :
    (transfer_from s B A C v).2.2 = TxResult.err Error.BalanceTooLow ∧
    ((transfer_from s B A C v).1).balances = s.balances ∧
    ((transfer_from s B A C v).1).total_supply = s.total_supply ∧
    allowance_of ((transfer_from s B A C v).1) A B =
      allowance_of s A B - v ∧
    (∀ p, p ≠ (A, B) →
      mapGet ((transfer_from s B A C v).1).allowances p =
        mapGet s.allowances p) ∧
    (transfer_from s B A C v).2.1 = [] := by
  have ha : ¬ ((mapGet s.allowances (A, B)).getD 0 < v) := not_lt.mpr hall
  have hb : (mapGet s.balances A).getD 0 < v := hbal
  have key : transfer_from s B A C v =
      ({ s with allowances :=
          mapInsert s.allowances (A, B) ((mapGet s.allowances (A, B)).getD 0 - v) },
        [], TxResult.err Error.BalanceTooLow) := by
    simp only [transfer_from, transfer_helper, balance_of_set_allowances,
      gt_iff_lt, balance_of]
    rw [if_neg ha, if_pos hb]
  rw [key]
  refine ⟨rfl, rfl, rfl, ?_, fun p hp => ?_, rfl⟩
  · simp [allowance_of, mapGet_mapInsert_self]
  · exact mapGet_mapInsert_ne _ _ _ _ hp

/-- Witness for C2's amended theorem at the concrete state `cState2`. -/
theorem C2_transfer_from_balance_fail_witness :
    (transfer_from cState2 1 0 2 3).2.2 = TxResult.err Error.BalanceTooLow ∧
    ((transfer_from cState2 1 0 2 3).1).balances = cState2.balances ∧
    allowance_of ((transfer_from cState2 1 0 2 3).1) 0 1 =
      allowance_of cState2 0 1 - 3 := by
  have h := C2_transfer_from_balance_fail cState2 0 1 2 3 (by decide) (by decide)
  exact ⟨h.1, h.2.1, h.2.2.2.1⟩

/-- Claim C3 is false on the code: a self-transfer is not a financial no-op.
After `new(10)` by account 0, `transfer(caller=0, to=0, value=5)` succeeds and
emits the notification, but `balance_of(0)` becomes 15 (old recipient balance
plus `v` is written last), not the unchanged 10 the claim requires. -/
theorem C3_self_transfer_not_noop :
    balance_of ((new 0 10).1) 0 = 10 ∧
    (transfer ((new 0 10).1) 0 0 5).2.2 = TxResult.ok ∧
    (transfer ((new 0 10).1) 0 0 5).2.1 =
      [Event.Transfer (some 0) (some 0) 5] ∧
    balance_of ((transfer ((new 0 10).1) 0 0 5).1) 0 = 15 := by
  decide

/-- Claim C4 is false on the code: `transfer_helper` uses plain (unchecked)
`u128` arithmetic and the `Error` enum has no overflow variant.  Starting from
`new(2^128 - 1)` by account 0, the self-transfer `transfer(0, 0, 2^128 - 1)`
makes the recipient addition overflow: the call returns `Ok` and the balance
wraps to `2^128 - 2` instead of failing with an overflow condition. -/
theorem C4_overflow_wraps :
    (transfer ((new 0 (2 ^ 128 - 1)).1) 0 0 (2 ^ 128 - 1)).2.2 =
      TxResult.ok ∧
    balance_of ((transfer ((new 0 (2 ^ 128 - 1)).1) 0 0 (2 ^ 128 - 1)).1) 0 =
      2 ^ 128 - 2 := by
  decide

/-- Claim C5 as stated is false at the aliased corner `C = A`: in `cState5`
both preconditions of `transfer_from(caller=1, from=0, to=0, 5)` hold, the
call succeeds, but account 0's balance becomes 15 instead of decreasing by
the transferred value. -/
theorem C5_claim_counterexample :
    5 ≤ allowance_of cState5 0 1 ∧ 5 ≤ balance_of cState5 0 ∧
    (transfer_from cState5 1 0 0 5).2.2 = TxResult.ok ∧
    balance_of cState5 0 = 10 ∧
    balance_of ((transfer_from cState5 1 0 0 5).1) 0 = 15 ∧
    balance_of ((transfer_from cState5 1 0 0 5).1) 0 ≠
      balance_of cState5 0 - 5 := by
  decide

/-- Claim C5 (amended): `transfer_from(caller=B, from=A, to=C, v)` succeeds
iff `allowance(A,B) ≥ v` and `balance_of(A) ≥ v`; on success the allowance of
`(A, B)` decreases by exactly `v` and the balances move exactly as the direct
`transfer(caller=A, to=C, v)` would move them; when additionally `C ≠ A` (and
the recipient sum stays within `u128`), `A`'s balance decreases by `v` and
`C`'s increases by `v`. -/
theorem C5_transfer_from_spec (s : Erc20) (A B C : AccountId) (v : Balance) :
    ((transfer_from s B A C v).2.2 = TxResult.ok ↔
      v ≤ allowance_of s A B ∧ v ≤ balance_of s A) ∧
    (v ≤ allowance_of s A B → v ≤ balance_of s A →
      allowance_of ((transfer_from s B A C v).1) A B =
        allowance_of s A B - v ∧
      ((transfer_from s B A C v).1).balances =
        ((transfer s A C v).1).balances ∧
      ((transfer_from s B A C v).1).total_supply = s.total_supply ∧
      (transfer_from s B A C v).2.1 = [Event.Transfer (some A) (some C) v] ∧
      (C ≠ A → balance_of s C + v < U128 →
        balance_of ((transfer_from s B A C v).1) A = balance_of s A - v ∧
        balance_of ((transfer_from s B A C v).1) C =
          balance_of s C + v)) := by
  by_cases ha : (mapGet s.allowances (A, B)).getD 0 < v
  · have key : transfer_from s B A C v =
        (s, [], TxResult.err Error.AllowancesTooLow) := by
      simp only [transfer_from]
      rw [if_pos ha]
    rw [key]
    refine ⟨⟨fun h => absurd h (by simp), fun hc => ?_⟩,
      fun h1 _ => absurd h1 (not_le.mpr ha)⟩
    exact absurd hc.1 (not_le.mpr ha)
  · by_cases hb : (mapGet s.balances A).getD 0 < v
    · have key : transfer_from s B A C v =
          ({ s with allowances :=
              mapInsert s.allowances (A, B) ((mapGet s.allowances (A, B)).getD 0 - v) },
            [], TxResult.err Error.BalanceTooLow) := by
        simp only [transfer_from, transfer_helper, balance_of_set_allowances,
          gt_iff_lt, balance_of]
        rw [if_neg ha, if_pos hb]
      rw [key]
      refine ⟨⟨fun h => absurd h (by simp), fun hc => ?_⟩,
        fun _ h2 => absurd h2 (not_le.mpr hb)⟩
      exact absurd hc.2 (not_le.mpr hb)
    · have key : transfer_from s B A C v =
          ({ s with
              balances :=
                mapInsert (mapInsert s.balances A ((mapGet s.balances A).getD 0 - v)) C
                  (((mapGet s.balances C).getD 0 + v) % U128)
              allowances :=
                mapInsert s.allowances (A, B) ((mapGet s.allowances (A, B)).getD 0 - v) },
            [Event.Transfer (some A) (some C) v], TxResult.ok) := by
        simp only [transfer_from, transfer_helper, balance_of_set_allowances,
          gt_iff_lt, balance_of]
        rw [if_neg ha, if_neg hb]
      have key2 : transfer s A C v =
          ({ s with
              balances :=
                mapInsert (mapInsert s.balances A ((mapGet s.balances A).getD 0 - v)) C
                  (((mapGet s.balances C).getD 0 + v) % U128) },
            [Event.Transfer (some A) (some C) v], TxResult.ok) := by
        simp only [transfer, transfer_helper, gt_iff_lt, balance_of]
        rw [if_neg hb]
      rw [key, key2]
      refine ⟨⟨fun _ => ⟨le_of_not_lt ha, le_of_not_lt hb⟩, fun _ => rfl⟩,
        fun _ _ => ⟨?_, rfl, rfl, rfl, fun hCA hov => ⟨?_, ?_⟩⟩⟩
      · simp [allowance_of, mapGet_mapInsert_self]
      · simp only [balance_of]
        rw [mapGet_mapInsert_ne _ _ _ _ (Ne.symm hCA), mapGet_mapInsert_self]
        rfl
      · simp only [balance_of] at hov ⊢
        rw [mapGet_mapInsert_self]
        exact Nat.mod_eq_of_lt hov

/-- Witness for C5's amended theorem at `cState5` with caller 1, owner 0,
recipient 2 and value 3. -/
theorem C5_transfer_from_spec_witness :
    (transfer_from cState5 1 0 2 3).2.2 = TxResult.ok ∧
    allowance_of ((transfer_from cState5 1 0 2 3).1) 0 1 = 2 ∧
    balance_of ((transfer_from cState5 1 0 2 3).1) 0 = 7 ∧
    balance_of ((transfer_from cState5 1 0 2 3).1) 2 = 3 := by
  have h := C5_transfer_from_spec cState5 0 1 2 3
  have hsucc := h.2 (by decide) (by decide)
  have heff := hsucc.2.2.2.2 (by decide) (by decide)
  refine ⟨h.1.mpr ⟨by decide, by decide⟩, ?_, ?_, ?_⟩
  · rw [hsucc.1]
    decide
  · rw [heff.1]
    decide
  · rw [heff.2]
    decide

/-- Claim C6: `transfer(caller=A, to=B, v)` fails iff `A`'s balance is below
`v` (no other precondition), the error is `BalanceTooLow`, and on failure the
whole state is exactly as before the call and no event is emitted. -/
theorem C6_transfer_fail_iff (s : Erc20) (A B : AccountId) (v : Balance) :
    ((transfer s A B v).2.2 ≠ TxResult.ok ↔ balance_of s A < v) ∧
    (balance_of s A < v →
      transfer s A B v = (s, [], TxResult.err Error.BalanceTooLow)) := by
  by_cases h : (mapGet s.balances A).getD 0 < v
  · have key : transfer s A B v = (s, [], TxResult.err Error.BalanceTooLow) := by
      simp only [transfer, transfer_helper, gt_iff_lt, balance_of]
      rw [if_pos h]
    rw [key]
    exact ⟨⟨fun _ => h, fun _ => by simp⟩, fun _ => rfl⟩
  · have key : (transfer s A B v).2.2 = TxResult.ok := by
      simp only [transfer, transfer_helper, gt_iff_lt, balance_of]
      rw [if_neg h]
    exact ⟨⟨fun hne => absurd key hne, fun h2 => absurd h2 h⟩,
      fun h2 => absurd h2 h⟩

/-- Witness for C6 at a caller with zero balance: after `new(10)` by account
0, `transfer(caller=1, to=2, 5)` fails with `BalanceTooLow`, keeps the state
and emits nothing. -/
theorem C6_transfer_fail_iff_witness :
    transfer ((new 0 10).1) 1 2 5 =
      ((new 0 10).1, [], TxResult.err Error.BalanceTooLow) := by
  have h := C6_transfer_fail_iff ((new 0 10).1) 1 2 5
  exact h.2 (by decide)

/-- Claim C7: `approve` overwrites the allowance of `(caller, spender)` (the
second value wins, not the sum), both calls succeed, each emits its `Approve`
notification, and neither balances nor `total_supply` change. -/
theorem C7_approve_overwrites (s : Erc20) (A B : AccountId)
    (v1 v2 : Balance) :
    allowance_of ((approve ((approve s A B v1).1) A B v2).1) A B = v2 ∧
    (approve s A B v1).2.2 = TxResult.ok ∧
    (approve ((approve s A B v1).1) A B v2).2.2 = TxResult.ok ∧
    (approve s A B v1).2.1 = [Event.Approve A B v1] ∧
    (approve ((approve s A B v1).1) A B v2).2.1 = [Event.Approve A B v2] ∧
    ((approve s A B v1).1).balances = s.balances ∧
    ((approve ((approve s A B v1).1) A B v2).1).balances = s.balances ∧
    ((approve ((approve s A B v1).1) A B v2).1).total_supply =
      s.total_supply := by
  refine ⟨?_, rfl, rfl, rfl, rfl, rfl, rfl, rfl⟩
  simp [approve, allowance_of, mapGet_mapInsert_self]

/-- Claim C8: `new(S)` called by `creator` yields `total_supply() = S`,
`balance_of(creator) = S`, balance 0 for every other account, an empty
allowances mapping, and emits exactly one
`Transfer { from: None, to: Some(creator), value: S }`; it cannot fail. -/
theorem C8_constructor (creator : AccountId) (S : Balance) :
    total_supply ((new creator S).1) = S ∧
    balance_of ((new creator S).1) creator = S ∧
    (∀ a, a ≠ creator → balance_of ((new creator S).1) a = 0) ∧
    ((new creator S).1).allowances = [] ∧
    (new creator S).2 = [Event.Transfer none (some creator) S] := by
  refine ⟨rfl, ?_, fun a ha => ?_, rfl, rfl⟩
  · simp [new, balance_of, mapInsert, mapGet]
  · have ha' : ¬(creator = a) := fun h => ha h.symm
    simp [new, balance_of, mapInsert, mapGet, ha']

/-- Witness for C8 at `creator = 0`, `S = 10`, other account 1. -/
theorem C8_constructor_witness :
    total_supply ((new 0 10).1) = 10 ∧
    balance_of ((new 0 10).1) 0 = 10 ∧
    balance_of ((new 0 10).1) 1 = 0 ∧
    ((new 0 10).1).allowances = [] := by
  have h := C8_constructor 0 10
  exact ⟨h.1, h.2.1, h.2.2.1 1 (by decide), h.2.2.2.1⟩

/-- Claim C9: `transfer_from` with `caller = from = A` is still bounded by the
stored self-allowance of `(A, A)`: if that entry (0 when absent) is below the
requested value, the call fails with `AllowancesTooLow` and changes nothing —
owning the balance grants no implicit allowance. -/
theorem C9_self_transfer_from_allowance (s : Erc20) (A C : AccountId)
    (v : Balance) (h : allowance_of s A A < v) :
    transfer_from s A A C v = (s, [], TxResult.err Error.AllowancesTooLow) := by
  have h' : (mapGet s.allowances (A, A)).getD 0 < v := h
  simp only [transfer_from]
  rw [if_pos h']

/-- Witness for C9: right after construction account 0 holds the whole supply
but has self-allowance 0, so `transfer_from(caller=0, from=0, to=1, 3)` fails
with `AllowancesTooLow`. -/
theorem C9_self_transfer_from_allowance_witness :
    transfer_from ((new 0 10).1) 0 0 1 3 =
      ((new 0 10).1, [], TxResult.err Error.AllowancesTooLow) := by
  exact C9_self_transfer_from_allowance ((new 0 10).1) 0 1 3 (by decide)

/-- Claim C10: a zero-value transfer always succeeds — also when the caller
has no balance entry — leaves every account's effective balance unchanged and
still emits `Transfer { Some(A), Some(B), 0 }`.  (The hypothesis on `B`'s
balance only encodes that stored balances are `u128` values.) -/
theorem C10_zero_transfer (s : Erc20) (A B : AccountId)
    (hB : balance_of s B < U128) :
    (transfer s A B 0).2.2 = TxResult.ok ∧
    (∀ a, balance_of ((transfer s A B 0).1) a = balance_of s a) ∧
    (transfer s A B 0).2.1 = [Event.Transfer (some A) (some B) 0] := by
  have h0 : ¬ ((mapGet s.balances A).getD 0 < 0) := Nat.not_lt_zero _
  have key : transfer s A B 0 =
      ({ s with
          balances :=
            mapInsert (mapInsert s.balances A ((mapGet s.balances A).getD 0 - 0)) B
              (((mapGet s.balances B).getD 0 + 0) % U128) },
        [Event.Transfer (some A) (some B) 0], TxResult.ok) := by
    simp only [transfer, transfer_helper, gt_iff_lt, balance_of]
    rw [if_neg h0]
  rw [key]
  refine ⟨rfl, fun a => ?_, rfl⟩
  by_cases hab : a = B
  · subst hab
    simp only [balance_of]
    rw [mapGet_mapInsert_self]
    simpa using Nat.mod_eq_of_lt hB
  · by_cases haa : a = A
    · subst haa
      simp only [balance_of]
      rw [mapGet_mapInsert_ne _ _ _ _ hab, mapGet_mapInsert_self]
      rfl
    · simp only [balance_of]
      rw [mapGet_mapInsert_ne _ _ _ _ hab, mapGet_mapInsert_ne _ _ _ _ haa]

/-- Witness for C10 between two accounts with no balance entries at all:
after `new(10)` by account 0, `transfer(caller=1, to=2, 0)` succeeds, changes
no effective balance and emits the zero-value notification. -/
theorem C10_zero_transfer_witness :
    (transfer ((new 0 10).1) 1 2 0).2.2 = TxResult.ok ∧
    balance_of ((transfer ((new 0 10).1) 1 2 0).1) 0 = 10 ∧
    balance_of ((transfer ((new 0 10).1) 1 2 0).1) 1 = 0 ∧
    (transfer ((new 0 10).1) 1 2 0).2.1 =
      [Event.Transfer (some 1) (some 2) 0] := by
  have h := C10_zero_transfer ((new 0 10).1) 1 2 (by decide)
  refine ⟨h.1, ?_, ?_, h.2.2⟩
  · rw [h.2.1 0]
    decide
  · rw [h.2.1 1]
    decide
